import Mathlib

/-!
Verification of the data-transformation logic of the germany_rentals
dashboard (src/app.py): the loader's price-category binning and rent-ceiling
filter, the sidebar filter layer, the key-metrics aggregates, the
segment/state groupby views and the amenities analysis.

Numeric columns are modelled by the type PFloat: an exact rational together
with NaN and the two infinities, mirroring the float semantics the pandas
operations in app.py rely on (NaN is the missing value, comparisons with NaN
are false, division of a nonzero value by zero yields an infinity, 0/0 and
operations on NaN yield NaN, and mean skips NaN but propagates infinities).
Tables are lists of rows in order; row-subset operations are List.filter.
-/

namespace GermanyRentals

/-- Scalar value of a numeric dataframe column: NaN (missing / undefined),
positive or negative infinity, or a finite value modelled exactly as a
rational. -/
inductive PFloat where
  | NaN : PFloat
  | posInf : PFloat
  | negInf : PFloat
  | fin : ℚ → PFloat
deriving DecidableEq

namespace PFloat

/-- IEEE-style addition: NaN propagates, opposite infinities give NaN. -/
def add : PFloat → PFloat → PFloat
  | NaN, _ => NaN
  | _, NaN => NaN
  | posInf, negInf => NaN
  | negInf, posInf => NaN
  | posInf, _ => posInf
  | _, posInf => posInf
  | negInf, _ => negInf
  | _, negInf => negInf
  | fin a, fin b => fin (a + b)

/-- IEEE-style subtraction. -/
def sub : PFloat → PFloat → PFloat
  | NaN, _ => NaN
  | _, NaN => NaN
  | posInf, posInf => NaN
  | negInf, negInf => NaN
  | posInf, _ => posInf
  | negInf, _ => negInf
  | fin _, posInf => negInf
  | fin _, negInf => posInf
  | fin a, fin b => fin (a - b)

/-- IEEE-style multiplication: infinity times zero is NaN. -/
def mul : PFloat → PFloat → PFloat
  | NaN, _ => NaN
  | _, NaN => NaN
  | fin a, fin b => fin (a * b)
  | posInf, posInf => posInf
  | posInf, negInf => negInf
  | negInf, posInf => negInf
  | negInf, negInf => posInf
  | posInf, fin b => if 0 < b then posInf else if b < 0 then negInf else NaN
  | fin a, posInf => if 0 < a then posInf else if a < 0 then negInf else NaN
  | negInf, fin b => if 0 < b then negInf else if b < 0 then posInf else NaN
  | fin a, negInf => if 0 < a then negInf else if a < 0 then posInf else NaN

/-- IEEE-style division: a nonzero finite value divided by zero yields a
signed infinity (numpy emits a warning but returns inf), 0/0 yields NaN,
infinity over infinity yields NaN, finite over infinity yields zero. -/
def div : PFloat → PFloat → PFloat
  | NaN, _ => NaN
  | _, NaN => NaN
  | fin a, fin b =>
      if b = 0 then (if 0 < a then posInf else if a < 0 then negInf else NaN)
      else fin (a / b)
  | posInf, posInf => NaN
  | posInf, negInf => NaN
  | negInf, posInf => NaN
  | negInf, negInf => NaN
  | posInf, fin b => if b < 0 then negInf else posInf
  | negInf, fin b => if b < 0 then posInf else negInf
  | fin _, posInf => fin 0
  | fin _, negInf => fin 0

/-- Test for the missing value. -/
def isNaN : PFloat → Bool
  | NaN => true
  | _ => false

/-- Pandas comparison x <= c against a finite constant: false on NaN. -/
def leC (x : PFloat) (c : ℚ) : Bool :=
  match x with
  | NaN => false
  | posInf => false
  | negInf => true
  | fin a => a ≤ c

/-- Pandas comparison x > 0: false on NaN. -/
def gtZero : PFloat → Bool
  | NaN => false
  | posInf => true
  | negInf => false
  | fin a => 0 < a

/-- Comes-before-or-equal relation of a pandas sort_values with
ascending=False and the default na_position of last: non-NaN values in
descending numeric order, NaN entries at the end. -/
def descLE : PFloat → PFloat → Bool
  | _, NaN => true
  | NaN, _ => false
  | posInf, _ => true
  | _, posInf => false
  | _, negInf => true
  | negInf, _ => false
  | fin a, fin b => b ≤ a

end PFloat

/-- Sum of a list of values, in order, starting from 0 (pandas sum over the
non-NaN entries is applied to a NaN-free list downstream). -/
def psum (l : List PFloat) : PFloat :=
  l.foldl PFloat.add (PFloat.fin 0)

/-- Pandas Series.mean with its default skipna: drop the NaN entries, return
NaN when nothing remains, otherwise sum over count. Infinities are not
dropped and propagate into the result. -/
def pmean (l : List PFloat) : PFloat :=
  let v := l.filter (fun x => !x.isNaN)
  if v.length = 0 then PFloat.NaN
  else (psum v).div (PFloat.fin (v.length : ℚ))

/-- Rounding to one decimal, as DataFrame.round(1) applied to the aggregates
(NaN and infinities pass through; the round tie-break mode is irrelevant to
the verified properties). -/
def round1 : PFloat → PFloat
  | PFloat.fin q => PFloat.fin (((round (10 * q) : ℤ) : ℚ) / 10)
  | x => x

/-- Raw CSV row of the rental dataset, with the columns src/app.py touches:
regio1 (federal state), totalRent and livingSpace (numeric, possibly missing
= NaN), and the five boolean amenity flags. -/
structure Listing where
  regio1 : String
  totalRent : PFloat
  livingSpace : PFloat
  balcony : Bool
  hasKitchen : Bool
  lift : Bool
  garden : Bool
  cellar : Bool
deriving DecidableEq

/-- Row of the loaded table: a Listing plus the derived price_category
column (none models the NaN a value outside every bin receives). -/
structure LoadedRow where
  regio1 : String
  totalRent : PFloat
  livingSpace : PFloat
  price_category : Option String
  balcony : Bool
  hasKitchen : Bool
  lift : Bool
  garden : Bool
  cellar : Bool
deriving DecidableEq

/-- The four bin labels of pd.cut, in bin order. -/
def price_categories : List String :=
  ["Budget", "Economy", "Mid-Range", "Premium"]

/-- Binning of pd.cut(totalRent, bins=[0, 500, 1000, 1500, 3000],
labels=[Budget, Economy, Mid-Range, Premium]) with the pandas defaults
right=True and include_lowest=False: the bins are the right-closed intervals
(0,500], (500,1000], (1000,1500], (1500,3000]; NaN, infinities and values
outside (0, 3000] fall in no bin and yield NaN (none). -/
def price_category_of (x : PFloat) : Option String :=
  match x with
  | PFloat.fin q =>
      if 0 < q ∧ q ≤ 500 then some "Budget"
      else if 500 < q ∧ q ≤ 1000 then some "Economy"
      else if 1000 < q ∧ q ≤ 1500 then some "Mid-Range"
      else if 1500 < q ∧ q ≤ 3000 then some "Premium"
      else none
  | _ => none

/-- Adjoining the derived price_category column to a raw row. -/
def addCategory (l : Listing) : LoadedRow :=
  { regio1 := l.regio1
    totalRent := l.totalRent
    livingSpace := l.livingSpace
    price_category := price_category_of l.totalRent
    balcony := l.balcony
    hasKitchen := l.hasKitchen
    lift := l.lift
    garden := l.garden
    cellar := l.cellar }

/-- Transformation step of load_data after the CSV parse: derive the
price_category column, then keep the rows satisfying totalRent <= 3000
(a comparison that is false for a missing totalRent, so such rows drop). -/
def load_data (raw : List Listing) : List LoadedRow :=
  (raw.map addCategory).filter (fun r => r.totalRent.leC 3000)

/-- Sidebar filter layer: an equality filter on regio1 unless the selection
is the sentinel "All States", then an equality filter on price_category
unless the selection is the sentinel "All Segments" (a pandas equality
comparison against a NaN category is false, so such rows never match). -/
def filtered_df (df : List LoadedRow) (selected_state selected_segment : String) :
    List LoadedRow :=
  let d1 := if selected_state ≠ "All States"
    then df.filter (fun r => r.regio1 == selected_state) else df
  if selected_segment ≠ "All Segments"
    then d1.filter (fun r => r.price_category == some selected_segment) else d1

/-- Key metric: mean of the totalRent column. -/
def avg_rent (df : List LoadedRow) : PFloat :=
  pmean (df.map (fun r => r.totalRent))

/-- Key metric: mean of the livingSpace column. -/
def avg_space (df : List LoadedRow) : PFloat :=
  pmean (df.map (fun r => r.livingSpace))

/-- Key metric: mean of the per-row ratio totalRent / livingSpace. -/
def price_per_sqm (df : List LoadedRow) : PFloat :=
  pmean (df.map (fun r => r.totalRent.div r.livingSpace))

/-- Aggregate row produced by the groupby on price_category. -/
structure SegRow where
  price_category : String
  avg_rent : PFloat
  count : ℕ
  avg_space : PFloat
deriving DecidableEq

/-- Pandas count aggregate: number of non-NaN totalRent entries in a group. -/
def rentCount (g : List LoadedRow) : ℕ :=
  ((g.map (fun r => r.totalRent)).filter (fun x => !x.isNaN)).length

/-- Segment view: groupby('price_category') over the categorical column
produced by pd.cut, with the pandas default observed=False, so the result
has one row for EVERY category label, including labels no retained row
carries (those groups aggregate to count 0 and NaN means); rows whose
category is NaN belong to no group. Aggregates are mean and non-null count
of totalRent and mean of livingSpace, rounded to one decimal. -/
def segment_data (df : List LoadedRow) : List SegRow :=
  price_categories.map (fun c =>
    let g := df.filter (fun r => r.price_category == some c)
    { price_category := c
      avg_rent := round1 (pmean (g.map (fun r => r.totalRent)))
      count := rentCount g
      avg_space := round1 (pmean (g.map (fun r => r.livingSpace))) })

/-- Aggregate row produced by the groupby on regio1. -/
structure StateRow where
  regio1 : String
  avg_rent : PFloat
  count : ℕ
  avg_space : PFloat
deriving DecidableEq

/-- Sort relation of sort_values('avg_rent', ascending=False) on the state
aggregates: descending mean rent, NaN last. -/
def stateRel (x y : StateRow) : Prop :=
  PFloat.descLE x.avg_rent y.avg_rent = true

instance : DecidableRel stateRel := fun x y => by
  unfold stateRel
  infer_instance

/-- Geography view: groupby('regio1') (a plain string column, so one group
per distinct observed value, groups in first-occurrence order before the
final sort), same aggregates as the segment view, then
sort_values('avg_rent', ascending=False). -/
def state_data (df : List LoadedRow) : List StateRow :=
  let rows := ((df.map (fun r => r.regio1)).dedup).map (fun s =>
    let g := df.filter (fun r => r.regio1 == s)
    { regio1 := s
      avg_rent := round1 (pmean (g.map (fun r => r.totalRent)))
      count := rentCount g
      avg_space := round1 (pmean (g.map (fun r => r.livingSpace))) : StateRow })
  List.insertionSort stateRel rows

/-- Fixed ordered list of amenity columns of the amenities tab. -/
def amenities : List String :=
  ["balcony", "hasKitchen", "lift", "garden", "cellar"]

/-- Dynamic column access filtered_df[amenity] for the five amenity names
(every amenity column is present in the modelled schema, so the guard
amenity in filtered_df.columns always passes). -/
def amenity_col (a : String) (r : LoadedRow) : Bool :=
  if a == "balcony" then r.balcony
  else if a == "hasKitchen" then r.hasKitchen
  else if a == "lift" then r.lift
  else if a == "garden" then r.garden
  else r.cellar

/-- Mean totalRent over the rows where the amenity flag is True. -/
def with_amenity_mean (df : List LoadedRow) (a : String) : PFloat :=
  pmean ((df.filter (fun r => amenity_col a r)).map (fun r => r.totalRent))

/-- Mean totalRent over the rows where the amenity flag is False. -/
def without_amenity_mean (df : List LoadedRow) (a : String) : PFloat :=
  pmean ((df.filter (fun r => !amenity_col a r)).map (fun r => r.totalRent))

/-- Result row of the amenities analysis. -/
structure AmenityRow where
  amenity : String
  premium_pct : PFloat
  prevalence : PFloat
deriving DecidableEq

/-- One iteration of the amenities loop: compute the two conditional mean
rents; when the without-mean compares greater than zero (false for NaN),
append the premium and prevalence percentages, otherwise append nothing. -/
def amenity_row (df : List LoadedRow) (a : String) : Option AmenityRow :=
  let wa := with_amenity_mean df a
  let woa := without_amenity_mean df a
  if woa.gtZero then
    some { amenity := a
           premium_pct := ((wa.sub woa).div woa).mul (PFloat.fin 100)
           prevalence :=
             ((PFloat.fin (((df.filter (fun r => amenity_col a r)).length : ℚ))).div
               (PFloat.fin ((df.length : ℚ)))).mul (PFloat.fin 100) }
  else none

/-- The amenity_results list: the loop over the fixed amenity list, keeping
the appended rows in loop order. -/
def amenity_results (df : List LoadedRow) : List AmenityRow :=
  amenities.filterMap (amenity_row df)

/-- Sort relation of sort_values('premium_%', ascending=False): descending
premium percentage, NaN last. -/
def amenityRel (x y : AmenityRow) : Prop :=
  PFloat.descLE x.premium_pct y.premium_pct = true

instance : DecidableRel amenityRel := fun x y => by
  unfold amenityRel
  infer_instance

/-- The displayed amenity_df: amenity_results sorted descending by the
premium percentage. -/
def amenity_df (df : List LoadedRow) : List AmenityRow :=
  List.insertionSort amenityRel (amenity_results df)

/-- Modelled from the spec (section 4.3): the per-row ratio
totalRent / livingSpace as the spec defines it, undefined (excluded) when
livingSpace is zero or either operand is missing. Used only to compare the
spec's stated avgPricePerArea semantics with the code's. -/
def definedRatio (r : LoadedRow) : Option ℚ :=
  match r.totalRent, r.livingSpace with
  | PFloat.fin t, PFloat.fin s => if s = 0 then none else some (t / s)
  | _, _ => none

/-- Modelled from the spec (section 4.3): avgPricePerArea as the mean of the
defined per-row ratios, with the undefined rows excluded, and no value at
all when every row is excluded. -/
def avgPricePerArea_spec (df : List LoadedRow) : Option ℚ :=
  let v := df.filterMap definedRatio
  if v.length = 0 then none
  else some (v.sum / (v.length : ℚ))

/-- Rows on which the code's ratio and the spec's ratio can be compared:
both numeric fields are finite or missing (no infinities in the raw data)
and the row is not the divergent case of a zero livingSpace under a nonzero
finite totalRent, where the code produces an infinity. -/
def tameRow (r : LoadedRow) : Bool :=
  (match r.totalRent with
   | PFloat.NaN => true
   | PFloat.fin _ => true
   | _ => false) &&
  (match r.livingSpace with
   | PFloat.NaN => true
   | PFloat.fin _ => true
   | _ => false) &&
  !(match r.totalRent, r.livingSpace with
    | PFloat.fin t, PFloat.fin s => s == 0 && !(t == 0)
    | _, _ => false)

/-- The sixteen German federal states the regio1 column draws from. -/
def states16 : List String :=
  ["Baden-Württemberg", "Bayern", "Berlin", "Brandenburg", "Bremen",
   "Hamburg", "Hessen", "Mecklenburg-Vorpommern", "Niedersachsen",
   "Nordrhein-Westfalen", "Rheinland-Pfalz", "Saarland", "Sachsen",
   "Sachsen-Anhalt", "Schleswig-Holstein", "Thüringen"]

/-- Raw two-row Berlin table of the end-to-end scenario in the spec. -/
def berlinRaw : List Listing :=
  [⟨"Berlin", PFloat.fin 400, PFloat.fin 40, false, false, false, false, false⟩,
   ⟨"Berlin", PFloat.fin 1200, PFloat.fin 60, false, false, false, false, false⟩]

/-- The Berlin scenario table after the load step. -/
def berlinTable : List LoadedRow :=
  load_data berlinRaw

/-- First row of the loaded Berlin scenario table. -/
def ldBerlin1 : LoadedRow :=
  ⟨"Berlin", PFloat.fin 400, PFloat.fin 40, some "Budget", false, false, false, false, false⟩

/-- Raw table with a zero livingSpace row, on which the code's
avgPricePerArea diverges from the exclusion semantics the spec states. -/
def zeroSpaceRaw : List Listing :=
  [⟨"Berlin", PFloat.fin 400, PFloat.fin 40, false, false, false, false, false⟩,
   ⟨"Berlin", PFloat.fin 100, PFloat.fin 0, false, false, false, false, false⟩]

/-- The zero-livingSpace table after the load step. -/
def zeroSpaceTable : List LoadedRow :=
  load_data zeroSpaceRaw

/-- Raw table whose single row has totalRent 0: it passes the ceiling
filter yet falls in no pd.cut bin. -/
def zeroRentRaw : List Listing :=
  [⟨"Berlin", PFloat.fin 0, PFloat.fin 40, false, false, false, false, false⟩]

/-- Raw table where the rows without a balcony average a rent of zero. -/
def noBalconyZeroRaw : List Listing :=
  [⟨"Berlin", PFloat.fin 0, PFloat.fin 40, false, false, false, false, false⟩,
   ⟨"Berlin", PFloat.fin 1000, PFloat.fin 50, true, false, false, false, false⟩]

/-- The zero-mean-without-balcony table after the load step. -/
def noBalconyZeroTable : List LoadedRow :=
  load_data noBalconyZeroRaw

/-- Raw table of the amenity scenario: balcony present on two rows with
mean rent 1000, absent on two rows with mean rent 800. -/
def balconyScenarioRaw : List Listing :=
  [⟨"Berlin", PFloat.fin 1000, PFloat.fin 50, true, false, false, false, false⟩,
   ⟨"Berlin", PFloat.fin 1000, PFloat.fin 50, true, false, false, false, false⟩,
   ⟨"Berlin", PFloat.fin 800, PFloat.fin 50, false, false, false, false, false⟩,
   ⟨"Berlin", PFloat.fin 800, PFloat.fin 50, false, false, false, false, false⟩]

/-- The amenity scenario table after the load step. -/
def balconyScenarioTable : List LoadedRow :=
  load_data balconyScenarioRaw

/-- Raw single-row table whose one row bins to Budget, exhibiting the
groupby output over a mostly-absent set of categories. -/
def oneBudgetRaw : List Listing :=
  [⟨"Berlin", PFloat.fin 300, PFloat.fin 40, false, false, false, false, false⟩]

/-- The single-Budget-row table after the load step. -/
def oneBudgetTable : List LoadedRow :=
  load_data oneBudgetRaw

/-- Raw table with one missing totalRent next to an ordinary row. -/
def missingRentRaw : List Listing :=
  [⟨"Hamburg", PFloat.NaN, PFloat.fin 55, false, false, false, false, false⟩,
   ⟨"Berlin", PFloat.fin 400, PFloat.fin 40, false, false, false, false, false⟩]

/-! Helper lemmas shared by the claim theorems. -/

theorem load_data_category {raw : List Listing} {r : LoadedRow}
    (h : r ∈ load_data raw) : r.price_category = price_category_of r.totalRent := by
  obtain ⟨hm, _⟩ := List.mem_filter.mp h
  obtain ⟨l, _, rfl⟩ := List.mem_map.mp hm
  rfl

theorem load_data_le {raw : List Listing} {r : LoadedRow} (h : r ∈ load_data raw) :
    ∀ q : ℚ, r.totalRent = PFloat.fin q → q ≤ 3000 := by
  obtain ⟨_, hle⟩ := List.mem_filter.mp h
  intro q hq
  rw [hq] at hle
  simpa [PFloat.leC] using hle

theorem load_data_not_nan {raw : List Listing} {r : LoadedRow}
    (h : r ∈ load_data raw) : r.totalRent ≠ PFloat.NaN := by
  obtain ⟨_, hle⟩ := List.mem_filter.mp h
  intro hn
  rw [hn] at hle
  simp [PFloat.leC] at hle

theorem filtered_df_sublist (df : List LoadedRow) (s g : String) :
    (filtered_df df s g).Sublist df := by
  simp only [filtered_df]
  split_ifs
  all_goals
    first
      | exact (List.filter_sublist _).trans (List.filter_sublist _)
      | exact List.filter_sublist _
      | exact List.Sublist.refl _

theorem filter_idem {α : Type} (p : α → Bool) (l : List α) :
    (l.filter p).filter p = l.filter p := by
  rw [List.filter_filter]
  exact List.filter_congr (fun a _ => Bool.and_self _)

/-! Claim theorems. -/

/-- C1 (counterexample): pd.cut with its default right=True is
right-inclusive, not left-inclusive: the boundary value 500 falls in the
Budget bin (0,500], not in a left-inclusive Economy bin [500,1000). -/
theorem boundary_500_is_budget :
    price_category_of (PFloat.fin 500) = some "Budget" ∧
    price_category_of (PFloat.fin 500) ≠ some "Economy" := by
  constructor
  · decide
  · decide

/-- C1 (amended): the loader bins totalRent at the fixed boundaries
[0, 500, 1000, 1500, 3000] into the ordered labels Budget, Economy,
Mid-Range, Premium with HALF-OPEN, RIGHT-INCLUSIVE bins (0,500], (500,1000],
(1000,1500], (1500,3000]: 750 yields Economy, 1500 yields Mid-Range, and the
boundary values 500, 1000, 1500 bin to the LOWER label (Budget, Economy,
Mid-Range); values at or below 0 or above 3000 bin to no label; every loaded
row carries exactly the label of its totalRent. -/
theorem binning_right_inclusive :
    price_category_of (PFloat.fin 750) = some "Economy" ∧
    price_category_of (PFloat.fin 1500) = some "Mid-Range" ∧
    price_category_of (PFloat.fin 500) = some "Budget" ∧
    price_category_of (PFloat.fin 1000) = some "Economy" ∧
    price_category_of (PFloat.fin 3000) = some "Premium" ∧
    (∀ q : ℚ, 0 < q → q ≤ 500 → price_category_of (PFloat.fin q) = some "Budget") ∧
    (∀ q : ℚ, 500 < q → q ≤ 1000 → price_category_of (PFloat.fin q) = some "Economy") ∧
    (∀ q : ℚ, 1000 < q → q ≤ 1500 → price_category_of (PFloat.fin q) = some "Mid-Range") ∧
    (∀ q : ℚ, 1500 < q → q ≤ 3000 → price_category_of (PFloat.fin q) = some "Premium") ∧
    (∀ q : ℚ, q ≤ 0 → price_category_of (PFloat.fin q) = none) ∧
    (∀ q : ℚ, 3000 < q → price_category_of (PFloat.fin q) = none) ∧
    (∀ raw : List Listing, ∀ r ∈ load_data raw,
      r.price_category = price_category_of r.totalRent) := by
  refine ⟨by decide, by decide, by decide, by decide, by decide, ?_, ?_, ?_, ?_, ?_, ?_, ?_⟩
  · intro q h1 h2
    simp only [price_category_of]
    rw [if_pos ⟨h1, h2⟩]
  · intro q h1 h2
    simp only [price_category_of]
    rw [if_neg (by rintro ⟨h3, h4⟩; linarith), if_pos ⟨h1, h2⟩]
  · intro q h1 h2
    simp only [price_category_of]
    rw [if_neg (by rintro ⟨h3, h4⟩; linarith), if_neg (by rintro ⟨h3, h4⟩; linarith),
      if_pos ⟨h1, h2⟩]
  · intro q h1 h2
    simp only [price_category_of]
    rw [if_neg (by rintro ⟨h3, h4⟩; linarith), if_neg (by rintro ⟨h3, h4⟩; linarith),
      if_neg (by rintro ⟨h3, h4⟩; linarith), if_pos ⟨h1, h2⟩]
  · intro q h1
    simp only [price_category_of]
    rw [if_neg (by rintro ⟨h3, h4⟩; linarith), if_neg (by rintro ⟨h3, h4⟩; linarith),
      if_neg (by rintro ⟨h3, h4⟩; linarith), if_neg (by rintro ⟨h3, h4⟩; linarith)]
  · intro q h1
    simp only [price_category_of]
    rw [if_neg (by rintro ⟨h3, h4⟩; linarith), if_neg (by rintro ⟨h3, h4⟩; linarith),
      if_neg (by rintro ⟨h3, h4⟩; linarith), if_neg (by rintro ⟨h3, h4⟩; linarith)]
  · intro raw r hr
    exact load_data_category hr

/-- C1 (witness): the bin characterizations of binning_right_inclusive
evaluated at the interior points 250 and 2000. -/
theorem binning_right_inclusive_w :
    price_category_of (PFloat.fin 250) = some "Budget" ∧
    price_category_of (PFloat.fin 2000) = some "Premium" := by
  obtain ⟨-, -, -, -, -, hB, -, -, hP, -⟩ := binning_right_inclusive
  exact ⟨hB 250 (by norm_num) (by norm_num), hP 2000 (by norm_num) (by norm_num)⟩

/-- C2 (counterexample): a row with totalRent 0 passes the ceiling filter
totalRent <= 3000 yet falls in no pd.cut bin, so the loaded table retains a
row whose price_category is null. -/
theorem zero_rent_retained_null :
    (load_data zeroRentRaw).length = 1 ∧
    (load_data zeroRentRaw).map (fun r => r.price_category) = [none] := by
  constructor
  · decide
  · decide

/-- C2 (amended): for every retained row, price_category is the
deterministic image of that row's totalRent under the binning function, and
it is non-null whenever the row's totalRent is a positive finite value; the
ceiling filter only removes rows with totalRent above 3000 (or missing), so
a retained row with totalRent at or below 0 keeps a null price_category. -/
theorem category_determinism_positive : ∀ raw : List Listing, ∀ r ∈ load_data raw,
    r.price_category = price_category_of r.totalRent ∧
    (∀ q : ℚ, r.totalRent = PFloat.fin q → 0 < q → ∃ c, r.price_category = some c) := by
  intro raw r hr
  refine ⟨load_data_category hr, ?_⟩
  intro q hq hpos
  have h3000 := load_data_le hr q hq
  rw [load_data_category hr, hq]
  simp only [price_category_of]
  split_ifs with h1 h2 h3 h4
  · exact ⟨_, rfl⟩
  · exact ⟨_, rfl⟩
  · exact ⟨_, rfl⟩
  · exact ⟨_, rfl⟩
  · exfalso
    push_neg at h1 h2 h3 h4
    have c1 : 500 < q := h1 hpos
    have c2 : 1000 < q := h2 (by linarith)
    have c3 : 1500 < q := h3 (by linarith)
    have c4 : 3000 < q := h4 (by linarith)
    linarith

/-- C2 (witness): category_determinism_positive applied to the first loaded
Berlin scenario row, whose totalRent 400 is positive. -/
theorem category_determinism_positive_w :
    ldBerlin1 ∈ load_data berlinRaw ∧
    ldBerlin1.price_category = price_category_of ldBerlin1.totalRent ∧
    (∃ c, ldBerlin1.price_category = some c) := by
  have h : ldBerlin1 ∈ load_data berlinRaw := by decide
  obtain ⟨h1, h2⟩ := category_determinism_positive berlinRaw ldBerlin1 h
  exact ⟨h, h1, h2 400 rfl (by norm_num)⟩

/-- C3: every row of the loaded table has totalRent at most 3000, and since
the filter layer returns row subsets, so does every row of every filtered
table derived from it. -/
theorem rent_ceiling_invariant : ∀ raw : List Listing,
    (∀ r ∈ load_data raw, ∀ q : ℚ, r.totalRent = PFloat.fin q → q ≤ 3000) ∧
    (∀ s g : String, ∀ r ∈ filtered_df (load_data raw) s g,
      ∀ q : ℚ, r.totalRent = PFloat.fin q → q ≤ 3000) := by
  intro raw
  constructor
  · intro r hr
    exact load_data_le hr
  · intro s g r hr
    exact load_data_le ((filtered_df_sublist (load_data raw) s g).subset hr)

/-- C3 (witness): rent_ceiling_invariant at the loaded Berlin table, its
first row and the row's concrete rent of 400. -/
theorem rent_ceiling_invariant_w :
    ldBerlin1 ∈ load_data berlinRaw ∧ (400 : ℚ) ≤ 3000 := by
  have h : ldBerlin1 ∈ load_data berlinRaw := by decide
  exact ⟨h, (rent_ceiling_invariant berlinRaw).1 ldBerlin1 h 400 rfl⟩

/-- C5: selecting both sentinels ("All States", "All Segments") leaves the
table unchanged, and for every selection the filter layer returns a sublist
of the input: a row subset in the original order with whole rows (all
columns) kept. -/
theorem filter_sentinel_noop_and_subset : ∀ (df : List LoadedRow) (s g : String),
    filtered_df df "All States" "All Segments" = df ∧
    (filtered_df df s g).Sublist df := by
  intro df s g
  refine ⟨?_, filtered_df_sublist df s g⟩
  simp [filtered_df]

/-- C5 (witness): filter_sentinel_noop_and_subset at the loaded Berlin
table with the Berlin / Budget selection. -/
theorem filter_sentinel_noop_and_subset_w :
    filtered_df berlinTable "All States" "All Segments" = berlinTable ∧
    (filtered_df berlinTable "Berlin" "Budget").Sublist berlinTable :=
  ⟨(filter_sentinel_noop_and_subset berlinTable "Berlin" "Budget").1,
   (filter_sentinel_noop_and_subset berlinTable "Berlin" "Budget").2⟩

/-- C6: the filter layer is idempotent: filtering an already-filtered table
again with the same selections returns it unchanged. -/
theorem filter_idempotent : ∀ (df : List LoadedRow) (s g : String),
    filtered_df (filtered_df df s g) s g = filtered_df df s g := by
  intro df s g
  simp only [filtered_df]
  split_ifs
  · simp only [List.filter_filter]
    refine List.filter_congr (fun a _ => ?_)
    cases hg : (a.price_category == some g) <;> cases hs : (a.regio1 == s) <;> simp [hg, hs]
  · exact filter_idem _ _
  · exact filter_idem _ _
  · rfl

/-- C6 (witness): filter_idempotent at the loaded Berlin table with the
Berlin / All Segments selection. -/
theorem filter_idempotent_w :
    filtered_df (filtered_df berlinTable "Berlin" "All Segments") "Berlin" "All Segments" =
      filtered_df berlinTable "Berlin" "All Segments" :=
  filter_idempotent berlinTable "Berlin" "All Segments"

/-- C10: the ceiling comparison is false for a missing totalRent, so no row
of the loaded table has a missing totalRent. -/
theorem no_missing_rent : ∀ raw : List Listing, ∀ r ∈ load_data raw,
    r.totalRent ≠ PFloat.NaN :=
  fun _ _ hr => load_data_not_nan hr

/-- C10 (witness): no_missing_rent at the loaded table of missingRentRaw,
whose NaN-rent row was dropped while the ordinary row survives. -/
theorem no_missing_rent_w :
    (load_data missingRentRaw).length = 1 ∧
    ldBerlin1 ∈ load_data missingRentRaw ∧
    ldBerlin1.totalRent ≠ PFloat.NaN := by
  have h : ldBerlin1 ∈ load_data missingRentRaw := by decide
  exact ⟨by decide, h, no_missing_rent missingRentRaw ldBerlin1 h⟩

theorem PFloat.isNaN_NaN : PFloat.NaN.isNaN = true := rfl

theorem PFloat.isNaN_fin (q : ℚ) : (PFloat.fin q).isNaN = false := rfl

theorem berlinTable_eq : berlinTable =
    [⟨"Berlin", PFloat.fin 400, PFloat.fin 40, some "Budget",
      false, false, false, false, false⟩,
     ⟨"Berlin", PFloat.fin 1200, PFloat.fin 60, some "Mid-Range",
      false, false, false, false, false⟩] := by
  decide

theorem psum_map_fin (l : List ℚ) : psum (l.map PFloat.fin) = PFloat.fin l.sum := by
  suffices h : ∀ acc : ℚ,
      (l.map PFloat.fin).foldl PFloat.add (PFloat.fin acc) = PFloat.fin (acc + l.sum) by
    simpa [psum] using h 0
  induction l with
  | nil => intro acc; simp
  | cons x xs ih =>
      intro acc
      simp only [List.map_cons, List.foldl_cons, PFloat.add, List.sum_cons, ih]
      ring_nf

theorem tame_ratio {r : LoadedRow} (h : tameRow r = true) :
    (definedRatio r = none ∧ PFloat.div r.totalRent r.livingSpace = PFloat.NaN) ∨
    (∃ q : ℚ, definedRatio r = some q ∧
      PFloat.div r.totalRent r.livingSpace = PFloat.fin q) := by
  unfold tameRow at h
  rcases ht : r.totalRent with _ | _ | _ | t <;> rw [ht] at h
  case NaN =>
    rcases hs : r.livingSpace with _ | _ | _ | s <;>
      simp [definedRatio, PFloat.div, ht, hs]
  case posInf => simp at h
  case negInf => simp at h
  case fin =>
    rcases hs : r.livingSpace with _ | _ | _ | s <;> rw [hs] at h
    case NaN => simp [definedRatio, PFloat.div, ht, hs]
    case posInf => simp at h
    case negInf => simp at h
    case fin =>
      simp only [Bool.true_and, Bool.and_eq_true, Bool.not_eq_eq_eq_not, Bool.not_true,
        Bool.and_eq_false_imp, beq_iff_eq, Bool.not_eq_false, beq_eq_false_iff_ne] at h
      by_cases hs0 : s = 0
      · left
        have ht0 : t = 0 := by
          by_contra hc
          simp [hs0, hc] at h
        simp [definedRatio, PFloat.div, ht, hs, hs0, ht0]
      · right
        exact ⟨t / s, by simp [definedRatio, ht, hs, hs0],
          by simp [PFloat.div, ht, hs, hs0]⟩

theorem tame_ratio_list (df : List LoadedRow) (h : ∀ r ∈ df, tameRow r = true) :
    (df.map (fun r => PFloat.div r.totalRent r.livingSpace)).filter (fun x => !x.isNaN)
      = (df.filterMap definedRatio).map PFloat.fin := by
  induction df with
  | nil => rfl
  | cons r rs ih =>
      have hr := h r (List.mem_cons_self r rs)
      have hrs := fun x hx => h x (List.mem_cons_of_mem r hx)
      rcases tame_ratio hr with ⟨h1, h2⟩ | ⟨q, h1, h2⟩ <;>
        simp [List.filter_cons, List.filterMap_cons, h1, h2, PFloat.isNaN_NaN,
          PFloat.isNaN_fin, ih hrs]

/-- C4 (counterexample): on a table with a zero livingSpace under a nonzero
totalRent, the code's per-row ratio is an infinity, which the mean does NOT
exclude: price_per_sqm becomes infinite, while the exclusion semantics the
spec states would yield 10. -/
theorem zero_space_infinite_mean :
    price_per_sqm zeroSpaceTable = PFloat.posInf ∧
    avgPricePerArea_spec zeroSpaceTable = some 10 := by
  constructor
  · decide
  · have hz : zeroSpaceTable =
        [⟨"Berlin", PFloat.fin 400, PFloat.fin 40, some "Budget",
          false, false, false, false, false⟩,
         ⟨"Berlin", PFloat.fin 100, PFloat.fin 0, some "Budget",
          false, false, false, false, false⟩] := by
      decide
    rw [hz]
    norm_num [avgPricePerArea_spec, definedRatio, List.filterMap]

/-- C4 (amended): avgPricePerArea is the mean of the per-row ratio
totalRent / livingSpace, not the ratio of means; a row whose totalRent or
livingSpace is missing contributes NaN and is excluded from the mean, and on
tables free of the zero-livingSpace-with-nonzero-rent divergence (where the
code produces an infinity instead of an excluded value) the code agrees
exactly with the spec's exclusion semantics. In the two-row Berlin scenario,
filtering by Berlin keeps both rows, avgRent is 800 and avgPricePerArea is
mean(10, 20) = 15. -/
theorem avg_price_per_area_mean_of_ratios :
    (∀ df : List LoadedRow, (∀ r ∈ df, tameRow r = true) →
      price_per_sqm df = Option.elim (avgPricePerArea_spec df) PFloat.NaN PFloat.fin) ∧
    filtered_df berlinTable "Berlin" "All Segments" = berlinTable ∧
    avg_rent berlinTable = PFloat.fin 800 ∧
    price_per_sqm berlinTable = PFloat.fin 15 ∧
    avgPricePerArea_spec berlinTable = some 15 := by
  refine ⟨?_, by decide, ?_, ?_, ?_⟩
  rotate_left
  · rw [berlinTable_eq]
    norm_num [avg_rent, pmean, psum, PFloat.add, PFloat.div, PFloat.isNaN_fin,
      List.filter_cons, List.filter_nil]
  · rw [berlinTable_eq]
    norm_num [price_per_sqm, pmean, psum, PFloat.add, PFloat.div, PFloat.isNaN_fin,
      List.filter_cons, List.filter_nil]
  · rw [berlinTable_eq]
    norm_num [avgPricePerArea_spec, definedRatio, List.filterMap]
  intro df h
  have key := tame_ratio_list df h
  simp only [price_per_sqm, pmean, avgPricePerArea_spec]
  rw [key, List.length_map]
  by_cases hw : (df.filterMap definedRatio).length = 0
  · simp [hw]
  · have hq : ((df.filterMap definedRatio).length : ℚ) ≠ 0 := Nat.cast_ne_zero.mpr hw
    rw [if_neg hw, if_neg hw, psum_map_fin]
    simp [PFloat.div, hq]

/-- C4 (witness): avg_price_per_area_mean_of_ratios at the loaded Berlin
table, every row of which is free of the divergent zero-livingSpace case. -/
theorem avg_price_per_area_mean_of_ratios_w :
    price_per_sqm berlinTable =
      Option.elim (avgPricePerArea_spec berlinTable) PFloat.NaN PFloat.fin :=
  avg_price_per_area_mean_of_ratios.1 berlinTable (by decide)

theorem amenity_row_amenity {df : List LoadedRow} {a : String} {row : AmenityRow}
    (h : amenity_row df a = some row) : row.amenity = a := by
  simp only [amenity_row] at h
  split_ifs at h
  rw [Option.some.injEq] at h
  rw [← h]

theorem amenity_row_eq_none {df : List LoadedRow} {a : String}
    (h : without_amenity_mean df a = PFloat.fin 0) : amenity_row df a = none := by
  simp only [amenity_row, h]
  norm_num [PFloat.gtZero]

/-- C7: whenever the mean rent over the rows lacking an amenity is zero, the
guard without_amenity > 0 fails, so that amenity is simply absent from the
amenities output (both the raw result list and the sorted one); nothing is
raised. -/
theorem zero_without_mean_omitted : ∀ (df : List LoadedRow) (a : String),
    without_amenity_mean df a = PFloat.fin 0 →
    a ∉ (amenity_results df).map (fun row => row.amenity) ∧
    a ∉ (amenity_df df).map (fun row => row.amenity) := by
  intro df a h
  have hnone := amenity_row_eq_none h
  have habs : a ∉ (amenity_results df).map (fun row => row.amenity) := by
    intro hmem
    obtain ⟨row, hrow, hra⟩ := List.mem_map.mp hmem
    obtain ⟨b, hb, hbrow⟩ := List.mem_filterMap.mp hrow
    have hba : b = a := by rw [← hra, amenity_row_amenity hbrow]
    rw [hba, hnone] at hbrow
    exact Option.noConfusion hbrow
  refine ⟨habs, ?_⟩
  intro hmem
  obtain ⟨row, hrow, hra⟩ := List.mem_map.mp hmem
  rw [amenity_df, List.mem_insertionSort] at hrow
  exact habs (List.mem_map.mpr ⟨row, hrow, hra⟩)

/-- C7 (witness): zero_without_mean_omitted on a table whose only
balcony-free row has rent 0: balcony is absent from the output while the
loop raised nothing. -/
theorem zero_without_mean_omitted_w :
    without_amenity_mean noBalconyZeroTable "balcony" = PFloat.fin 0 ∧
    "balcony" ∉ (amenity_results noBalconyZeroTable).map (fun row => row.amenity) := by
  have hf : noBalconyZeroTable.filter (fun r => !amenity_col "balcony" r) =
      [⟨"Berlin", PFloat.fin 0, PFloat.fin 40, none, false, false, false, false, false⟩] := by
    decide
  have h : without_amenity_mean noBalconyZeroTable "balcony" = PFloat.fin 0 := by
    rw [without_amenity_mean, hf]
    norm_num [pmean, psum, PFloat.add, PFloat.div, PFloat.isNaN_fin, List.filter_cons,
      List.filter_nil]
  exact ⟨h, (zero_without_mean_omitted noBalconyZeroTable "balcony" h).1⟩

theorem with_balcony_eval :
    with_amenity_mean balconyScenarioTable "balcony" = PFloat.fin 1000 := by
  have hf : balconyScenarioTable.filter (fun r => amenity_col "balcony" r) =
      [⟨"Berlin", PFloat.fin 1000, PFloat.fin 50, some "Economy",
        true, false, false, false, false⟩,
       ⟨"Berlin", PFloat.fin 1000, PFloat.fin 50, some "Economy",
        true, false, false, false, false⟩] := by
    decide
  rw [with_amenity_mean, hf]
  norm_num [pmean, psum, PFloat.add, PFloat.div, PFloat.isNaN_fin, List.filter_cons,
    List.filter_nil]

theorem without_balcony_eval :
    without_amenity_mean balconyScenarioTable "balcony" = PFloat.fin 800 := by
  have hf : balconyScenarioTable.filter (fun r => !amenity_col "balcony" r) =
      [⟨"Berlin", PFloat.fin 800, PFloat.fin 50, some "Economy",
        false, false, false, false, false⟩,
       ⟨"Berlin", PFloat.fin 800, PFloat.fin 50, some "Economy",
        false, false, false, false, false⟩] := by
    decide
  rw [without_amenity_mean, hf]
  norm_num [pmean, psum, PFloat.add, PFloat.div, PFloat.isNaN_fin, List.filter_cons,
    List.filter_nil]

theorem balcony_row_eval : amenity_row balconyScenarioTable "balcony" =
    some ⟨"balcony", PFloat.fin 25, PFloat.fin 50⟩ := by
  have hc1 : (balconyScenarioTable.filter (fun r => amenity_col "balcony" r)).length = 2 := by
    decide
  have hc2 : balconyScenarioTable.length = 4 := by decide
  simp only [amenity_row, with_balcony_eval, without_balcony_eval, hc1, hc2]
  norm_num [PFloat.gtZero, PFloat.sub, PFloat.div, PFloat.mul]

theorem PFloat.descLE_total : ∀ a b : PFloat, PFloat.descLE a b = true ∨ PFloat.descLE b a = true := by
  intro a b
  cases a <;> cases b <;> simp [PFloat.descLE]
  exact le_total _ _

theorem PFloat.descLE_trans : ∀ a b c : PFloat, PFloat.descLE a b = true →
    PFloat.descLE b c = true → PFloat.descLE a c = true := by
  intro a b c
  cases a <;> cases b <;> cases c <;> simp [PFloat.descLE] <;>
    exact fun h1 h2 => le_trans h2 h1

/-- C8: every row of the amenities output carries
premium = ((meanRentWhereTrue - meanRentWhereFalse) / meanRentWhereFalse) * 100
and prevalence = (countWhereTrue / totalCount) * 100 for its own amenity
column; the output is sorted descending by the premium percentage (missing
premiums last); and the balcony scenario (two rows with a balcony at mean
rent 1000, two without at mean rent 800) yields the output row with premium
25 and prevalence 50. -/
theorem amenity_formulas_sorted :
    (∀ df : List LoadedRow, List.Sorted amenityRel (amenity_df df)) ∧
    (∀ df : List LoadedRow, ∀ row ∈ amenity_df df,
      row.premium_pct = PFloat.mul (PFloat.div
          (PFloat.sub (with_amenity_mean df row.amenity) (without_amenity_mean df row.amenity))
          (without_amenity_mean df row.amenity)) (PFloat.fin 100) ∧
      row.prevalence = PFloat.mul (PFloat.div
          (PFloat.fin (((df.filter (fun r => amenity_col row.amenity r)).length : ℚ)))
          (PFloat.fin ((df.length : ℚ)))) (PFloat.fin 100)) ∧
    (⟨"balcony", PFloat.fin 25, PFloat.fin 50⟩ : AmenityRow) ∈
      amenity_df balconyScenarioTable := by
  refine ⟨?_, ?_, ?_⟩
  rotate_right
  · simp only [amenity_df, List.mem_insertionSort]
    exact List.mem_filterMap.mpr ⟨"balcony", by decide, balcony_row_eval⟩
  · intro df
    haveI : IsTotal AmenityRow amenityRel := ⟨fun x y => PFloat.descLE_total _ _⟩
    haveI : IsTrans AmenityRow amenityRel := ⟨fun x y z => PFloat.descLE_trans _ _ _⟩
    exact List.sorted_insertionSort amenityRel _
  · intro df row hrow
    rw [amenity_df, List.mem_insertionSort] at hrow
    obtain ⟨a, ha, hsome⟩ := List.mem_filterMap.mp hrow
    simp only [amenity_row] at hsome
    split_ifs at hsome
    rw [Option.some.injEq] at hsome
    rw [← hsome]
    exact ⟨rfl, rfl⟩

/-- C8 (witness): amenity_formulas_sorted applied to the balcony scenario
row of the sorted output. -/
theorem amenity_formulas_sorted_w :
    (⟨"balcony", PFloat.fin 25, PFloat.fin 50⟩ : AmenityRow) ∈ amenity_df balconyScenarioTable ∧
    PFloat.fin 25 = PFloat.mul (PFloat.div
        (PFloat.sub (with_amenity_mean balconyScenarioTable "balcony")
          (without_amenity_mean balconyScenarioTable "balcony"))
        (without_amenity_mean balconyScenarioTable "balcony")) (PFloat.fin 100) := by
  have hm : (⟨"balcony", PFloat.fin 25, PFloat.fin 50⟩ : AmenityRow) ∈
      amenity_df balconyScenarioTable := amenity_formulas_sorted.2.2
  exact ⟨hm, (amenity_formulas_sorted.2.1 balconyScenarioTable _ hm).1⟩

/-- C9 (counterexample): on a loaded table whose rows span a single price
category, segment_data still has four rows, one per category LABEL: the
pd.cut column is categorical and the groupby default observed=False keeps
unobserved categories, so the output is not one row per distinct category
present (a Premium row with count 0 and NaN means appears). -/
theorem absent_categories_still_rows :
    (oneBudgetTable.map (fun r => r.price_category)).dedup = [some "Budget"] ∧
    (segment_data oneBudgetTable).length = 4 ∧
    (⟨"Premium", PFloat.NaN, 0, PFloat.NaN⟩ : SegRow) ∈ segment_data oneBudgetTable := by
  refine ⟨by decide, by decide, by decide⟩

/-- C9 (amended): segment_data always has exactly four rows, one per price
category label (absent categories included with count 0), hence never more
than 4; state_data has one row per distinct region present, hence at most 16
rows on any table whose regions are among the sixteen federal states. -/
theorem segment_state_row_bounds :
    (∀ df : List LoadedRow, (segment_data df).length = 4 ∧
      (segment_data df).map (fun r => r.price_category) = price_categories) ∧
    (∀ df : List LoadedRow,
      (state_data df).length = ((df.map (fun r => r.regio1)).dedup).length) ∧
    (∀ df : List LoadedRow, (∀ r ∈ df, r.regio1 ∈ states16) →
      (state_data df).length ≤ 16) := by
  refine ⟨fun df => ⟨rfl, rfl⟩, fun df => ?_, fun df h => ?_⟩
  · simp only [state_data]
    rw [(List.perm_insertionSort _ _).length_eq, List.length_map]
  · have hlen : (state_data df).length = ((df.map (fun r => r.regio1)).dedup).length := by
      simp only [state_data]
      rw [(List.perm_insertionSort _ _).length_eq, List.length_map]
    rw [hlen]
    have hsub : (df.map (fun r => r.regio1)).dedup ⊆ states16 := by
      intro x hx
      obtain ⟨r, hr, rfl⟩ := List.mem_map.mp (List.dedup_subset _ hx)
      exact h r hr
    exact (List.subperm_of_subset (List.nodup_dedup _) hsub).length_le

/-- C9 (witness): segment_state_row_bounds at the loaded Berlin table, whose
regions all lie among the sixteen states. -/
theorem segment_state_row_bounds_w :
    (segment_data berlinTable).length = 4 ∧ (state_data berlinTable).length ≤ 16 :=
  ⟨(segment_state_row_bounds.1 berlinTable).1,
   segment_state_row_bounds.2.2 berlinTable (by decide)⟩
